import Mathlib

/-!
Verification of the OsdagBridge repository's bridge-geometry, input-dock and
additional-inputs logic against its natural-language specification.

The Python sources are shallowly embedded: widths, offsets and spans are
modelled as exact rationals (`ℚ`), Python's `round` (banker's rounding,
half-to-even) as `pyRound`, fixed-point string formatting (`"{:.kf}"`) as
`fmtFixed`, and fallible operations (`raise`) as `Except String`.
Concrete-strength formulas that call `math.sqrt` are embedded over `ℝ` with
`Real.sqrt`.
-/

namespace OsdagBridge

/-- Python's built-in `round` on an exact rational: round half to even. -/
def pyRound (q : ℚ) : ℤ :=
  let f := ⌊q⌋
  let r := q - f
  if r < 1/2 then f
  else if 1/2 < r then f + 1
  else if f % 2 = 0 then f else f + 1

/-- Python's fixed-point formatting `"{:.pf}".format(q)` of an exact
rational, for positive precision `p`: round to `p` decimal places
(half-to-even) and print with exactly `p` digits after the point. -/
def fmtFixed (q : ℚ) (p : ℕ) : String :=
  let n : ℤ := pyRound (q * (10 : ℚ) ^ p)
  let sgn := if n < 0 then "-" else ""
  let m := n.natAbs
  let ip := m / 10 ^ p
  let fp := m % 10 ^ p
  let fs := toString fp
  sgn ++ toString ip ++ "." ++ String.mk (List.replicate (p - fs.length) '0') ++ fs

/-!
## Embedding of `src/osdagbridge/core/bridge_types/plate_girder/bridge_geometry.py`
-/

/-- `Point`: immutable 2-D coordinate in the bridge's local system. -/
structure Point where
  x : ℚ
  z : ℚ
deriving DecidableEq, Repr

/-- `LineLoadGeometry(start, end)`.  (Python field `end` is a Lean keyword,
embedded as `end_`.) -/
structure LineLoadGeometry where
  start : Point
  end_ : Point
deriving DecidableEq, Repr

/-- `PatchLoadGeometry(p1, p2, p3, p4)`. -/
structure PatchLoadGeometry where
  p1 : Point
  p2 : Point
  p3 : Point
  p4 : Point
deriving DecidableEq, Repr

/-- `SectionComponent(name, width, x_start, x_end)`. -/
structure SectionComponent where
  name : String
  width : ℚ
  x_start : ℚ
  x_end : ℚ
deriving DecidableEq, Repr

/-- `SectionComponent.center`: `0.5 * (x_start + x_end)`. -/
def SectionComponent.center (c : SectionComponent) : ℚ :=
  (1/2) * (c.x_start + c.x_end)

/-- `BridgeGeometry(span, width)`: global coordinate frame of the bridge. -/
structure BridgeGeometry where
  span : ℚ
  width : ℚ
deriving DecidableEq, Repr

/-- `CrashBarrier(bridge, offset_from_edge, side)`. -/
structure CrashBarrier where
  bridge : BridgeGeometry
  offset : ℚ
  side : String
deriving DecidableEq, Repr

/-- `CrashBarrier.to_global`: vertical line at `x = offset` (side "left")
or `x = width - offset` (side "right"); any other side raises
`ValueError("side must be 'left' or 'right'")`. -/
def CrashBarrier.to_global (b : CrashBarrier) : Except String LineLoadGeometry :=
  if b.side = "left" then
    .ok ⟨⟨b.offset, 0⟩, ⟨b.offset, b.bridge.span⟩⟩
  else if b.side = "right" then
    .ok ⟨⟨b.bridge.width - b.offset, 0⟩, ⟨b.bridge.width - b.offset, b.bridge.span⟩⟩
  else
    .error "side must be 'left' or 'right'"

/-- `CrossSectionLayout.ORDER`: the fixed canonical left-to-right order. -/
def ORDER : List String :=
  ["railing_left", "footpath_left", "crash_barrier_left", "carriageway_left",
   "median", "carriageway_right", "crash_barrier_right", "footpath_right",
   "railing_right"]

/-- The sequence of `add(name, width)` calls performed by
`CrossSectionLayout._build_layout`, as a candidate list: left railing and
footpath are attempted only when `no_of_footpaths >= 1`, the right footpath
and railing only when `no_of_footpaths >= 2`, and the carriageway is split
into two halves flanking the median. -/
def layout_candidates (carriageway_width crash_barrier_width railing_width
    footpath_width median_width : ℚ) (no_of_footpaths : ℤ) : List (String × ℚ) :=
  (if 1 ≤ no_of_footpaths then
    [("railing_left", railing_width), ("footpath_left", footpath_width)]
   else []) ++
  [("crash_barrier_left", crash_barrier_width),
   ("carriageway_left", carriageway_width / 2),
   ("median", median_width),
   ("carriageway_right", carriageway_width / 2),
   ("crash_barrier_right", crash_barrier_width)] ++
  (if 2 ≤ no_of_footpaths then
    [("footpath_right", footpath_width), ("railing_right", railing_width)]
   else [])

/-- The running-cursor body of `_build_layout.add`: skip a candidate whose
width is `<= 0`, otherwise append a `SectionComponent` from the cursor `x`
to `x + width` and advance the cursor. -/
def buildFrom (x : ℚ) : List (String × ℚ) → List SectionComponent
  | [] => []
  | (n, w) :: rest =>
    if w ≤ 0 then buildFrom x rest
    else ⟨n, w, x, x + w⟩ :: buildFrom (x + w) rest

/-- The final cursor position of `_build_layout` (assigned to
`total_width`). -/
def totalFrom (x : ℚ) : List (String × ℚ) → ℚ
  | [] => x
  | (_, w) :: rest =>
    if w ≤ 0 then totalFrom x rest
    else totalFrom (x + w) rest

/-- `CrossSectionLayout`: constructor arguments plus the component list and
`total_width` produced by `_build_layout`. -/
structure CrossSectionLayout where
  carriageway_width : ℚ
  crash_barrier_width : ℚ
  railing_width : ℚ
  footpath_width : ℚ
  median_width : ℚ
  no_of_footpaths : ℤ
  components_list : List SectionComponent
  total_width : ℚ
deriving DecidableEq, Repr

/-- `CrossSectionLayout.__init__`: store the inputs and run
`_build_layout` starting from cursor `x = 0.0`. -/
def CrossSectionLayout.make (carriageway_width crash_barrier_width : ℚ)
    (railing_width footpath_width median_width : ℚ) (no_of_footpaths : ℤ) :
    CrossSectionLayout :=
  let cands := layout_candidates carriageway_width crash_barrier_width
    railing_width footpath_width median_width no_of_footpaths
  { carriageway_width := carriageway_width
    crash_barrier_width := crash_barrier_width
    railing_width := railing_width
    footpath_width := footpath_width
    median_width := median_width
    no_of_footpaths := no_of_footpaths
    components_list := buildFrom 0 cands
    total_width := totalFrom 0 cands }

/-- `CrossSectionLayout.get_component(name)`: first component with the
requested name, else `KeyError(f"Component '{name}' not present in layout")`. -/
def CrossSectionLayout.get_component (l : CrossSectionLayout) (name : String) :
    Except String SectionComponent :=
  match l.components_list.find? (fun c => c.name == name) with
  | some c => .ok c
  | none => .error ("Component '" ++ name ++ "' not present in layout")

/-- `CrossSectionLayout.has_component(name)`. -/
def CrossSectionLayout.has_component (l : CrossSectionLayout) (name : String) : Bool :=
  l.components_list.any (fun c => c.name == name)

/-- `CrossSectionLayout.components()`: the ordered component list. -/
def CrossSectionLayout.components (l : CrossSectionLayout) : List SectionComponent :=
  l.components_list

/-- The `ValueError` message built by
`CrossSectionLayout.validate_against_bridge`: both widths to 3 decimal
places, the absolute difference to 6 decimal places. -/
def mismatch_message (total_width bridge_width : ℚ) : String :=
  "Cross-section width mismatch:\n" ++
  "  CrossSectionLayout width = " ++ fmtFixed total_width 3 ++ " m\n" ++
  "  BridgeGeometry width     = " ++ fmtFixed bridge_width 3 ++ " m\n" ++
  "  Difference               = " ++ fmtFixed |total_width - bridge_width| 6 ++ " m"

/-- `CrossSectionLayout.validate_against_bridge(bridge_width, tol=1e-6)`:
raises `ValueError` iff `abs(total_width - bridge_width) > tol`. -/
def CrossSectionLayout.validate_against_bridge (l : CrossSectionLayout)
    (bridge_width : ℚ) (tol : ℚ := 1/1000000) : Except String Unit :=
  if |l.total_width - bridge_width| > tol then
    .error (mismatch_message l.total_width bridge_width)
  else
    .ok ()

/-- `LoadPlacementManager(bridge, layout)`. -/
structure LoadPlacementManager where
  bridge : BridgeGeometry
  layout : CrossSectionLayout
deriving DecidableEq, Repr

/-- `LoadPlacementManager.footpath_load(side)`: patch over the
`footpath_{side}` component's strip. -/
def LoadPlacementManager.footpath_load (m : LoadPlacementManager) (side : String) :
    Except String PatchLoadGeometry :=
  match m.layout.get_component ("footpath_" ++ side) with
  | .error e => .error e
  | .ok comp =>
      .ok ⟨⟨comp.x_start, 0⟩, ⟨comp.x_end, 0⟩,
           ⟨comp.x_end, m.bridge.span⟩, ⟨comp.x_start, m.bridge.span⟩⟩

/-- `LoadPlacementManager.crash_barrier_load(side)`: line along the center
of the `crash_barrier_{side}` component. -/
def LoadPlacementManager.crash_barrier_load (m : LoadPlacementManager) (side : String) :
    Except String LineLoadGeometry :=
  match m.layout.get_component ("crash_barrier_" ++ side) with
  | .error e => .error e
  | .ok comp => .ok ⟨⟨comp.center, 0⟩, ⟨comp.center, m.bridge.span⟩⟩

/-- `LoadPlacementManager.railing_load(side)`: line along the center of the
`railing_{side}` component. -/
def LoadPlacementManager.railing_load (m : LoadPlacementManager) (side : String) :
    Except String LineLoadGeometry :=
  match m.layout.get_component ("railing_" ++ side) with
  | .error e => .error e
  | .ok comp => .ok ⟨⟨comp.center, 0⟩, ⟨comp.center, m.bridge.span⟩⟩

/-- `LoadPlacementManager.median_line_load()`: line along the center of the
`median` component. -/
def LoadPlacementManager.median_line_load (m : LoadPlacementManager) :
    Except String LineLoadGeometry :=
  match m.layout.get_component "median" with
  | .error e => .error e
  | .ok comp => .ok ⟨⟨comp.center, 0⟩, ⟨comp.center, m.bridge.span⟩⟩

/-- `calculate_bridge_width`: `carriageway + 2*crash_barrier + median +
no_of_footpaths*footpath + no_of_footpaths*railing`. -/
def calculate_bridge_width (carriageway_width crash_barrier_width median_width : ℚ)
    (no_of_footpaths : ℤ) (footpath_width railing_width : ℚ) : ℚ :=
  carriageway_width + 2 * crash_barrier_width + median_width +
    no_of_footpaths * footpath_width + no_of_footpaths * railing_width

/-- `create_default_load_placement(...)`: computes the bridge width and
geometry, then executes `manager = LoadPlacementManager(bridge)`
(bridge_geometry.py line 406).  `LoadPlacementManager.__init__` (line 169)
takes two required arguments `(bridge, layout)`, so this call raises
`TypeError` before any component is created; every later statement
(including the `manager.add_component(...)` calls on a method that does not
exist) is unreachable. -/
def create_default_load_placement (span carriageway_width crash_barrier_width : ℚ)
    (no_of_footpaths : ℤ) (footpath_width railing_width median_width : ℚ) :
    Except String LoadPlacementManager :=
  let bridge_width := calculate_bridge_width carriageway_width crash_barrier_width
    median_width no_of_footpaths footpath_width railing_width
  let _bridge : BridgeGeometry := ⟨span, bridge_width⟩
  .error "TypeError: LoadPlacementManager.__init__() missing 1 required positional argument: 'layout'"

/-!
## Embedding of `src/osdagbridge/core/utils/common.py` (validation limits)
-/

/-- `CARRIAGEWAY_WIDTH_MIN = 4.25` (no median present). -/
def CARRIAGEWAY_WIDTH_MIN : ℚ := 4.25

/-- `CARRIAGEWAY_WIDTH_MIN_WITH_MEDIAN = 7.5` (each carriageway when a
median is provided). -/
def CARRIAGEWAY_WIDTH_MIN_WITH_MEDIAN : ℚ := 7.5

/-- `CARRIAGEWAY_WIDTH_MAX_LIMIT = 23.6`. -/
def CARRIAGEWAY_WIDTH_MAX_LIMIT : ℚ := 23.6

/-!
## Embedding of `src/osdagbridge/desktop/ui/docks/input_dock.py`
-/

/-- Result of `InputDock.validate_carriageway_width` on the carriageway
field: the text the field is rewritten to (`none` = the field is cleared)
and the warning popped up (when `show_message` is true). -/
structure FieldUpdate where
  field : Option String
  warning : Option String
deriving DecidableEq, Repr

/-- `InputDock._carriageway_limits`: `(min_width, CARRIAGEWAY_WIDTH_MAX_LIMIT)`
with `min_width` median-dependent. -/
def carriageway_limits (include_median : Bool) : ℚ × ℚ :=
  ((if include_median then CARRIAGEWAY_WIDTH_MIN_WITH_MEDIAN else CARRIAGEWAY_WIDTH_MIN),
   CARRIAGEWAY_WIDTH_MAX_LIMIT)

/-- `InputDock.validate_carriageway_width` (with `show_message=True`) on a
non-empty entry.  The entry is the result of Python's `float(text)`:
`none` models an unparseable text (the `except ValueError` branch, which
clears the field), `some value` a parsed number, which is clamped into the
median-dependent limits and rewritten with `"{:.2f}"` formatting. -/
def validate_carriageway_width (entry : Option ℚ) (include_median : Bool) :
    FieldUpdate :=
  match entry with
  | none => ⟨none, some "Please enter a numeric carriageway width."⟩
  | some value =>
    let min_width := (carriageway_limits include_median).1
    let max_width := (carriageway_limits include_median).2
    if value < min_width then
      ⟨some (fmtFixed min_width 2),
       some (if include_median then
          "IRC 5 Clause 104.3.1 requires minimum carriageway width on both sides of the median to be at least 7.5 m."
        else
          "IRC 5 Clause 104.3.1 requires minimum carriageway width of 4.25 m.")⟩
    else if value > max_width then
      ⟨some (fmtFixed max_width 2), some "Software limits carriageway width upto 23.6 m"⟩
    else
      ⟨some (fmtFixed value 2), none⟩

/-!
### `MaterialPropertiesDialog` (same file)
-/

/-- `int(''.join(digit characters))`. -/
def digitsToNat (l : List Char) : ℕ :=
  l.foldl (fun acc c => 10 * acc + (c.toNat - 48)) 0

/-- `MaterialPropertiesDialog._extract_numeric_grade(grade, default)`:
the integer formed by concatenating every digit character of the grade
string, or `default` when the string has no digits. -/
def extract_numeric_grade (grade : String) (default : ℕ) : ℕ :=
  let digits := grade.data.filter (fun c => c.isDigit)
  if digits.isEmpty then default else digitsToNat digits

/-- `STEEL_GRADE_BASE_VALUES`: nominal grade number -> `(Fy, Fu)`. -/
def STEEL_GRADE_BASE_VALUES : List (ℕ × ℕ × ℕ) :=
  [(250, 250, 410), (275, 275, 430), (300, 300, 440), (350, 350, 490),
   (410, 410, 540), (450, 450, 570), (550, 550, 650), (600, 600, 700),
   (650, 650, 750)]

/-- `VALUES_MATERIAL` (from `core/utils/common.py`): the 28 IS steel grades. -/
def VALUES_MATERIAL : List String :=
  ["E 250A", "E 250BR", "E 250B0", "E 250C",
   "E 275A", "E 275BR", "E 275B0", "E 275C",
   "E 300A", "E 300BR", "E 300B0", "E 300C",
   "E 350A", "E 350BR", "E 350B0", "E 350C",
   "E 410A", "E 410BR", "E 410B0", "E 410C",
   "E 450A", "E 450BR",
   "E 550A", "E 550BR",
   "E 600A", "E 600BR",
   "E 650A", "E 650BR"]

/-- The field map returned by `MaterialPropertiesDialog._steel_defaults`,
each value `"{:.1f}"`-formatted. -/
structure SteelFields where
  Fu : String
  Fy : String
  E : String
  G : String
  poisson : String
  thermal : String
deriving DecidableEq, Repr

/-- `MaterialPropertiesDialog._steel_defaults(grade)`: look the extracted
numeric grade up in `STEEL_GRADE_BASE_VALUES`, falling back to the `250`
entry (`STEEL_GRADE_BASE_VALUES[250]`) when absent; module constants
`STEEL_MODULUS_E_GPA = 200.0`, `STEEL_MODULUS_G_GPA = 77.0`,
`STEEL_POISSON_RATIO = 0.30`, `STEEL_THERMAL_COEFF = 11.7`. -/
def steel_defaults (grade : String) : SteelFields :=
  let grade_value := extract_numeric_grade grade 250
  let defaults : ℕ × ℕ :=
    match STEEL_GRADE_BASE_VALUES.find? (fun t => t.1 == grade_value) with
    | some t => (t.2.1, t.2.2)
    | none => (250, 410)
  { Fu := fmtFixed defaults.2 1
    Fy := fmtFixed defaults.1 1
    E := fmtFixed 200.0 1
    G := fmtFixed 77.0 1
    poisson := fmtFixed 0.30 1
    thermal := fmtFixed 11.7 1 }

/-- Python's `round` on a real number: round half to even. -/
noncomputable def pyRoundR (x : ℝ) : ℤ :=
  let f := ⌊x⌋
  let r := x - f
  if r < 1/2 then f
  else if 1/2 < r then f + 1
  else if f % 2 = 0 then f else f + 1

/-- Python's `round(x, 1)`: round to one decimal place, half to even. -/
noncomputable def pyRound1R (x : ℝ) : ℝ :=
  (pyRoundR (10 * x) : ℝ) / 10

/-- Numeric values of the map returned by
`MaterialPropertiesDialog._deck_defaults` (the dialog then renders each
with `"{:.1f}"`, which does not change an already one-decimal value). -/
structure DeckFields where
  fck : ℝ
  fctm : ℝ
  ecm : ℝ
  factor : ℝ

/-- `MaterialPropertiesDialog._deck_defaults(grade, factor_value)`:
`fck = float(_extract_numeric_grade(grade, default=25))`,
`fctm = round(0.7 * math.sqrt(fck), 1)`,
`ecm = round(5.0 * math.sqrt(fck) * factor_value, 1)`. -/
noncomputable def deck_defaults (grade : String) (factor_value : ℝ) : DeckFields :=
  let strength := extract_numeric_grade grade 25
  let fck : ℝ := strength
  { fck := fck
    fctm := pyRound1R (0.7 * Real.sqrt fck)
    ecm := pyRound1R (5.0 * Real.sqrt fck * factor_value)
    factor := factor_value }

/-!
## Embedding of `src/osdagbridge/desktop/ui/additional_inputs.py`
(`TypicalSectionDetails` girder-count / girder-spacing reconciliation)
-/

/-- The forward formula of `TypicalSectionDetails.recalculate_girders`:
`no_girders = int(round((overall_width - 2 * overhang) / spacing)) + 1`. -/
def no_of_girders_formula (overall_width overhang spacing : ℚ) : ℤ :=
  pyRound ((overall_width - 2 * overhang) / spacing) + 1

/-- The back-solving formula of
`TypicalSectionDetails.on_no_of_girders_changed`:
`new_spacing = (overall_width - 2 * overhang) / (no_girders - 1)`. -/
def back_solved_spacing (overall_width overhang : ℚ) (no_girders : ℤ) : ℚ :=
  (overall_width - 2 * overhang) / ((no_girders : ℚ) - 1)

/-!
## Helper lemmas
-/

theorem pyRound_intCast (k : ℤ) : pyRound (k : ℚ) = k := by
  simp [pyRound]

theorem pyRound_nonpos {q : ℚ} (h : q ≤ 0) : pyRound q ≤ 0 := by
  have hf : ⌊q⌋ ≤ 0 := Int.floor_nonpos h
  simp only [pyRound]
  by_cases h1 : q - ⌊q⌋ < 1/2
  · rw [if_pos h1]
    exact hf
  · rw [if_neg h1]
    have hf1 : ⌊q⌋ ≤ -1 := by
      rcases lt_or_eq_of_le hf with h2 | h2
      · omega
      · exfalso
        apply h1
        rw [h2]
        push_cast
        have : q < 1/2 := lt_of_le_of_lt h (by norm_num)
        linarith
    by_cases h2 : 1/2 < q - ⌊q⌋
    · rw [if_pos h2]
      omega
    · rw [if_neg h2]
      split <;> omega

theorem buildFrom_names (x : ℚ) (l : List (String × ℚ)) :
    (buildFrom x l).map SectionComponent.name =
      (l.filter fun p => decide (0 < p.2)).map Prod.fst := by
  induction l generalizing x with
  | nil => rfl
  | cons hd tl ih =>
    obtain ⟨n, w⟩ := hd
    by_cases h : w ≤ 0
    · have : ¬ (0 < w) := not_lt.mpr h
      simp [buildFrom, h, List.filter_cons, this, ih]
    · have : 0 < w := not_le.mp h
      simp [buildFrom, h, List.filter_cons, this, ih]

theorem buildFrom_widths (x : ℚ) (l : List (String × ℚ)) :
    (buildFrom x l).map SectionComponent.width =
      (l.filter fun p => decide (0 < p.2)).map Prod.snd := by
  induction l generalizing x with
  | nil => rfl
  | cons hd tl ih =>
    obtain ⟨n, w⟩ := hd
    by_cases h : w ≤ 0
    · have : ¬ (0 < w) := not_lt.mpr h
      simp [buildFrom, h, List.filter_cons, this, ih]
    · have : 0 < w := not_le.mp h
      simp [buildFrom, h, List.filter_cons, this, ih]

theorem totalFrom_eq (x : ℚ) (l : List (String × ℚ)) :
    totalFrom x l = x + ((l.filter fun p => decide (0 < p.2)).map Prod.snd).sum := by
  induction l generalizing x with
  | nil => simp [totalFrom]
  | cons hd tl ih =>
    obtain ⟨n, w⟩ := hd
    by_cases h : w ≤ 0
    · have : ¬ (0 < w) := not_lt.mpr h
      simp [totalFrom, h, List.filter_cons, this, ih]
    · have h0 : 0 < w := not_le.mp h
      have hd : decide (0 < w) = true := decide_eq_true h0
      rw [totalFrom, if_neg h, List.filter_cons, hd, if_pos rfl]
      simp only [List.map_cons, List.sum_cons, ih]
      ring

theorem buildFrom_chain (x : ℚ) (l : List (String × ℚ)) :
    x :: (buildFrom x l).map SectionComponent.x_end =
      (buildFrom x l).map SectionComponent.x_start ++ [totalFrom x l] := by
  induction l generalizing x with
  | nil => rfl
  | cons hd tl ih =>
    obtain ⟨n, w⟩ := hd
    by_cases h : w ≤ 0
    · simp only [buildFrom, totalFrom, if_pos h]
      exact ih x
    · simp only [buildFrom, totalFrom, if_neg h, List.map_cons, List.cons_append]
      exact congrArg (x :: ·) (ih (x + w))

theorem buildFrom_mem_width {x : ℚ} {l : List (String × ℚ)} {c : SectionComponent}
    (hc : c ∈ buildFrom x l) :
    c.width = c.x_end - c.x_start ∧ 0 < c.width := by
  induction l generalizing x with
  | nil => simp [buildFrom] at hc
  | cons hd tl ih =>
    obtain ⟨n, w⟩ := hd
    by_cases h : w ≤ 0
    · rw [buildFrom, if_pos h] at hc
      exact ih hc
    · rw [buildFrom, if_neg h] at hc
      rcases List.mem_cons.mp hc with h1 | h1
      · subst h1
        exact ⟨by ring, not_le.mp h⟩
      · exact ih h1

/-!
## Claim theorems
-/

/-- C1: the spec claims `create_default_load_placement` registers a full
default component set and returns the populated manager without raising.
On the code, for every input tuple, the factory instead raises a
`TypeError` at `LoadPlacementManager(bridge)` (bridge_geometry.py line
406), because `LoadPlacementManager.__init__` requires the second
positional argument `layout`; no manager is ever returned. -/
theorem create_default_load_placement_always_raises
    (span carriageway_width crash_barrier_width : ℚ) (no_of_footpaths : ℤ)
    (footpath_width railing_width median_width : ℚ) :
    create_default_load_placement span carriageway_width crash_barrier_width
        no_of_footpaths footpath_width railing_width median_width =
      .error "TypeError: LoadPlacementManager.__init__() missing 1 required positional argument: 'layout'" :=
  rfl

/-- C4: `CrashBarrier.to_global` returns the vertical line at `x = offset`
for side "left", at `x = width - offset` for side "right", and raises the
invalid-input error `"side must be 'left' or 'right'"` for every other
side value. -/
theorem crash_barrier_to_global_spec (bridge : BridgeGeometry) (offset : ℚ) :
    (CrashBarrier.mk bridge offset "left").to_global =
      .ok ⟨⟨offset, 0⟩, ⟨offset, bridge.span⟩⟩ ∧
    (CrashBarrier.mk bridge offset "right").to_global =
      .ok ⟨⟨bridge.width - offset, 0⟩, ⟨bridge.width - offset, bridge.span⟩⟩ ∧
    ∀ side : String, side ≠ "left" → side ≠ "right" →
      (CrashBarrier.mk bridge offset side).to_global =
        .error "side must be 'left' or 'right'" := by
  refine ⟨rfl, rfl, ?_⟩
  intro side h1 h2
  simp [CrashBarrier.to_global, h1, h2]

/-- Witness for C4 at the spec's concrete example:
`BridgeGeometry(span=30, width=12)`, `offset_from_edge=0.5`,
`side="middle"` fails with the invalid-input error. -/
theorem crash_barrier_to_global_spec_witness :
    (CrashBarrier.mk ⟨30, 12⟩ (1/2) "middle").to_global =
      .error "side must be 'left' or 'right'" :=
  (crash_barrier_to_global_spec ⟨30, 12⟩ (1/2)).2.2 "middle"
    (by decide) (by decide)

/-- C3: `validate_against_bridge(bridge_width, tol)` raises an
invalid-input error iff `|total_width - bridge_width| > tol`; when it
raises, the message is the one reporting both widths to 3 decimal places
and their absolute difference to 6 decimal places.  At the spec's
example layout (`carriageway_width=10`, `crash_barrier_width=0.5`,
`total_width=11`) under the default tolerance `1e-6`: a difference of
`1e-5` fails, a difference of `1e-7` succeeds, and a difference of exactly
`1e-6` succeeds. -/
theorem validate_against_bridge_spec (l : CrossSectionLayout) (bw tol : ℚ) :
    ((∃ msg, l.validate_against_bridge bw tol = .error msg) ↔
      |l.total_width - bw| > tol) ∧
    (l.validate_against_bridge bw tol =
        .error (mismatch_message l.total_width bw) ∨
      l.validate_against_bridge bw tol = .ok ()) ∧
    (CrossSectionLayout.make 10 0.5 0 0 0 0).validate_against_bridge
      (11 + 1/100000) (1/1000000) =
      .error (mismatch_message 11 (11 + 1/100000)) ∧
    (CrossSectionLayout.make 10 0.5 0 0 0 0).validate_against_bridge
      (11 + 1/10000000) (1/1000000) = .ok () ∧
    (CrossSectionLayout.make 10 0.5 0 0 0 0).validate_against_bridge
      (11 + 1/1000000) (1/1000000) = .ok () := by
  refine ⟨?_, ?_, by with_unfolding_all rfl, by with_unfolding_all rfl,
    by with_unfolding_all rfl⟩
  · unfold CrossSectionLayout.validate_against_bridge
    by_cases h : |l.total_width - bw| > tol
    · simp [h]
    · simp [h]
  · unfold CrossSectionLayout.validate_against_bridge
    by_cases h : |l.total_width - bw| > tol
    · simp [h]
    · simp [h]

/-- C6: the input dock's carriageway-width reconciliation clamps a parsed
value into `[min_width, 23.6]` with `min_width = 7.5` when the median is
included and `4.25` otherwise; below-minimum entries snap up with the
median-dependent IRC 5 Clause 104.3.1 warning, above-maximum entries snap
down with the software-limit warning, in-range entries are kept, the field
is always rewritten with 2-decimal formatting, and an unparseable entry
clears the field. -/
theorem carriageway_width_reconciliation_spec (v : ℚ) (include_median : Bool) :
    (carriageway_limits include_median).1 =
      (if include_median then (7.5 : ℚ) else 4.25) ∧
    (carriageway_limits include_median).2 = (23.6 : ℚ) ∧
    (v < (carriageway_limits include_median).1 →
      validate_carriageway_width (some v) include_median =
        ⟨some (fmtFixed (carriageway_limits include_median).1 2),
         some (if include_median then
            "IRC 5 Clause 104.3.1 requires minimum carriageway width on both sides of the median to be at least 7.5 m."
          else
            "IRC 5 Clause 104.3.1 requires minimum carriageway width of 4.25 m.")⟩) ∧
    ((carriageway_limits include_median).2 < v →
      validate_carriageway_width (some v) include_median =
        ⟨some "23.60", some "Software limits carriageway width upto 23.6 m"⟩) ∧
    ((carriageway_limits include_median).1 ≤ v →
      v ≤ (carriageway_limits include_median).2 →
      validate_carriageway_width (some v) include_median =
        ⟨some (fmtFixed v 2), none⟩) ∧
    validate_carriageway_width none include_median =
      ⟨none, some "Please enter a numeric carriageway width."⟩ := by
  have hmin : (carriageway_limits include_median).1 ≤
      (carriageway_limits include_median).2 := by
    cases include_median <;>
      norm_num [carriageway_limits, CARRIAGEWAY_WIDTH_MIN,
        CARRIAGEWAY_WIDTH_MIN_WITH_MEDIAN, CARRIAGEWAY_WIDTH_MAX_LIMIT]
  refine ⟨?_, rfl, ?_, ?_, ?_, rfl⟩
  · cases include_median <;> rfl
  · intro h
    simp only [validate_carriageway_width]
    rw [if_pos h]
  · intro h
    have h1 : ¬ (v < (carriageway_limits include_median).1) := by
      push_neg
      linarith
    simp only [validate_carriageway_width]
    rw [if_neg h1, if_pos h]
    cases include_median <;> with_unfolding_all rfl
  · intro h1 h2
    simp only [validate_carriageway_width]
    rw [if_neg (not_lt.mpr h1), if_neg (not_lt.mpr h2)]

/-- Witness for C6: entering `3.0` with the median excluded snaps up to
`4.25`, rewritten to two decimals, with the no-median IRC 5 warning. -/
theorem carriageway_width_reconciliation_spec_witness :
    validate_carriageway_width (some 3) false =
      ⟨some "4.25",
       some "IRC 5 Clause 104.3.1 requires minimum carriageway width of 4.25 m."⟩ := by
  rw [(carriageway_width_reconciliation_spec 3 false).2.2.1
    (by norm_num [carriageway_limits, CARRIAGEWAY_WIDTH_MIN])]
  with_unfolding_all rfl

/-- C7: the girder reconciliation formulas are internally consistent as a
round trip.  For `0 < spacing < overall_width` and `overhang <
overall_width`, if the forward formula of `recalculate_girders` gives
`n ≥ 2` girders, then re-applying the forward formula to the spacing
back-solved from `n` by `on_no_of_girders_changed` gives `n` again. -/
theorem girder_reconciliation_round_trip (w o s : ℚ)
    (hs : 0 < s) (_hsw : s < w) (_how : o < w)
    (hn : 2 ≤ no_of_girders_formula w o s) :
    no_of_girders_formula w o
        (back_solved_spacing w o (no_of_girders_formula w o s)) =
      no_of_girders_formula w o s := by
  set n := no_of_girders_formula w o s with hne
  have h1 : 1 ≤ pyRound ((w - 2 * o) / s) := by
    have : n = pyRound ((w - 2 * o) / s) + 1 := hne
    omega
  have hds : 0 < (w - 2 * o) / s := by
    by_contra hc
    push_neg at hc
    have := pyRound_nonpos hc
    omega
  have hdpos : 0 < w - 2 * o := by
    by_contra hc
    push_neg at hc
    have : (w - 2 * o) / s ≤ 0 := div_nonpos_of_nonpos_of_nonneg hc (le_of_lt hs)
    linarith
  have hn1 : ((n : ℚ) - 1) ≠ 0 := by
    have h2 : (2 : ℚ) ≤ (n : ℚ) := by exact_mod_cast hn
    intro hz
    have : (n : ℚ) = 1 := sub_eq_zero.mp hz
    rw [this] at h2
    norm_num at h2
  have hd0 : w - 2 * o ≠ 0 := ne_of_gt hdpos
  have key : (w - 2 * o) / back_solved_spacing w o n = (n : ℚ) - 1 := by
    unfold back_solved_spacing
    rw [div_div_eq_mul_div, mul_comm, mul_div_assoc, div_self hd0, mul_one]
  unfold no_of_girders_formula
  rw [key]
  have hcast : ((n : ℚ) - 1) = ((n - 1 : ℤ) : ℚ) := by
    push_cast
    ring
  rw [hcast, pyRound_intCast]
  omega

/-- Witness for C7 at the spec's example: `overall_width = 13.65`,
`overhang = 1.0`, `spacing = 2.5` gives 6 girders; back-solving and
re-applying the forward formula returns 6. -/
theorem girder_reconciliation_round_trip_witness :
    no_of_girders_formula 13.65 1
        (back_solved_spacing 13.65 1 (no_of_girders_formula 13.65 1 2.5)) =
      no_of_girders_formula 13.65 1 2.5 :=
  girder_reconciliation_round_trip 13.65 1 2.5 (by norm_num) (by norm_num)
    (by norm_num) (by with_unfolding_all decide)

/-- C10: for each of the five "B0"-suffixed steel grades, the digit
concatenation of `_extract_numeric_grade` yields ten times the nominal
grade, that key is absent from `STEEL_GRADE_BASE_VALUES`, and
`_steel_defaults` therefore falls back to the 250 entry, returning
`Fy = "250.0"` and `Fu = "410.0"`. -/
theorem steel_b0_grades_fall_back_to_250 :
    extract_numeric_grade "E 250B0" 250 = 10 * 250 ∧
    extract_numeric_grade "E 275B0" 250 = 10 * 275 ∧
    extract_numeric_grade "E 300B0" 250 = 10 * 300 ∧
    extract_numeric_grade "E 350B0" 250 = 10 * 350 ∧
    extract_numeric_grade "E 410B0" 250 = 10 * 410 ∧
    (STEEL_GRADE_BASE_VALUES.find? (fun t => t.1 == 2500)) = none ∧
    (STEEL_GRADE_BASE_VALUES.find? (fun t => t.1 == 2750)) = none ∧
    (STEEL_GRADE_BASE_VALUES.find? (fun t => t.1 == 3000)) = none ∧
    (STEEL_GRADE_BASE_VALUES.find? (fun t => t.1 == 3500)) = none ∧
    (STEEL_GRADE_BASE_VALUES.find? (fun t => t.1 == 4100)) = none ∧
    (steel_defaults "E 250B0").Fy = "250.0" ∧
    (steel_defaults "E 250B0").Fu = "410.0" ∧
    (steel_defaults "E 275B0").Fy = "250.0" ∧
    (steel_defaults "E 275B0").Fu = "410.0" ∧
    (steel_defaults "E 300B0").Fy = "250.0" ∧
    (steel_defaults "E 300B0").Fu = "410.0" ∧
    (steel_defaults "E 350B0").Fy = "250.0" ∧
    (steel_defaults "E 350B0").Fu = "410.0" ∧
    (steel_defaults "E 410B0").Fy = "250.0" ∧
    (steel_defaults "E 410B0").Fu = "410.0" ∧
    "E 250B0" ∈ VALUES_MATERIAL ∧ "E 275B0" ∈ VALUES_MATERIAL ∧
    "E 300B0" ∈ VALUES_MATERIAL ∧ "E 350B0" ∈ VALUES_MATERIAL ∧
    "E 410B0" ∈ VALUES_MATERIAL := by
  with_unfolding_all decide

theorem find_none_of_not_has {l : CrossSectionLayout} {name : String}
    (h : l.has_component name = false) :
    l.components_list.find? (fun c => c.name == name) = none := by
  rw [List.find?_eq_none]
  intro c hc hb
  have ht : l.has_component name = true := by
    unfold CrossSectionLayout.has_component
    rw [List.any_eq_true]
    exact ⟨c, hc, hb⟩
  rw [ht] at h
  exact Bool.noConfusion h

/-- C5: every layout-driven query of `LoadPlacementManager` fails with the
`get_component` not-found error naming the missing component key whenever
the corresponding named component is absent from the layout; in
particular, `footpath_load("left")` on a layout built with
`no_of_footpaths=0` fails naming `footpath_left`. -/
theorem layout_driven_queries_not_found (m : LoadPlacementManager) (side : String) :
    (m.layout.has_component ("footpath_" ++ side) = false →
      m.footpath_load side =
        .error ("Component '" ++ ("footpath_" ++ side) ++ "' not present in layout")) ∧
    (m.layout.has_component ("crash_barrier_" ++ side) = false →
      m.crash_barrier_load side =
        .error ("Component '" ++ ("crash_barrier_" ++ side) ++ "' not present in layout")) ∧
    (m.layout.has_component ("railing_" ++ side) = false →
      m.railing_load side =
        .error ("Component '" ++ ("railing_" ++ side) ++ "' not present in layout")) ∧
    (m.layout.has_component "median" = false →
      m.median_line_load =
        .error ("Component '" ++ "median" ++ "' not present in layout")) ∧
    (LoadPlacementManager.mk ⟨30, 11⟩
        (CrossSectionLayout.make 10 0.5 0.15 1.5 0 0)).footpath_load "left" =
      .error "Component 'footpath_left' not present in layout" := by
  refine ⟨?_, ?_, ?_, ?_, by with_unfolding_all rfl⟩ <;>
  · intro h
    simp only [LoadPlacementManager.footpath_load, LoadPlacementManager.crash_barrier_load,
      LoadPlacementManager.railing_load, LoadPlacementManager.median_line_load,
      CrossSectionLayout.get_component, find_none_of_not_has h]

/-- Witness for C5: on the `no_of_footpaths=0` layout (which also has
`median_width=0`), `median_line_load` fails naming `median`. -/
theorem layout_driven_queries_not_found_witness :
    (LoadPlacementManager.mk ⟨30, 11⟩
        (CrossSectionLayout.make 10 0.5 0.15 1.5 0 0)).median_line_load =
      .error ("Component '" ++ "median" ++ "' not present in layout") :=
  (layout_driven_queries_not_found
    (LoadPlacementManager.mk ⟨30, 11⟩ (CrossSectionLayout.make 10 0.5 0.15 1.5 0 0))
    "left").2.2.2.1 (by with_unfolding_all rfl)

/-- C9: every constructed `CrossSectionLayout` is a contiguous
left-to-right partition of `[0, total_width]`: prepending `0` to the list
of `x_end`s equals appending `total_width` to the list of `x_start`s
(first starts at 0, each end meets the next start, last ends at
`total_width`), every component satisfies `width = x_end - x_start`, and
each center lies strictly inside its strip. -/
theorem cross_section_layout_contiguous (cw cbw rw fw mw : ℚ) (nfp : ℤ) :
    ((0 : ℚ) :: (CrossSectionLayout.make cw cbw rw fw mw nfp).components.map
        SectionComponent.x_end =
      (CrossSectionLayout.make cw cbw rw fw mw nfp).components.map
          SectionComponent.x_start ++
        [(CrossSectionLayout.make cw cbw rw fw mw nfp).total_width]) ∧
    ∀ c ∈ (CrossSectionLayout.make cw cbw rw fw mw nfp).components,
      c.width = c.x_end - c.x_start ∧ c.x_start < c.center ∧ c.center < c.x_end := by
  constructor
  · exact buildFrom_chain 0 _
  · intro c hc
    obtain ⟨hw, hpos⟩ := buildFrom_mem_width hc
    have hlt : c.x_start < c.x_end := by linarith
    unfold SectionComponent.center
    exact ⟨hw, by linarith, by linarith⟩

/-- Witness for C9: the `median` strip of the layout
`(carriageway=10, crash_barrier=0.5, railing=0.15, footpath=1.5,
median=1.0, footpaths=2)` runs from 7.15 to 8.15, has width `x_end -
x_start`, and its center lies strictly inside. -/
theorem cross_section_layout_contiguous_witness :
    (⟨"median", 1.0, 7.15, 8.15⟩ : SectionComponent).width =
        (⟨"median", 1.0, 7.15, 8.15⟩ : SectionComponent).x_end -
          (⟨"median", 1.0, 7.15, 8.15⟩ : SectionComponent).x_start ∧
      (⟨"median", 1.0, 7.15, 8.15⟩ : SectionComponent).x_start <
        (⟨"median", 1.0, 7.15, 8.15⟩ : SectionComponent).center ∧
      (⟨"median", 1.0, 7.15, 8.15⟩ : SectionComponent).center <
        (⟨"median", 1.0, 7.15, 8.15⟩ : SectionComponent).x_end :=
  (cross_section_layout_contiguous 10 0.5 0.15 1.5 1.0 2).2
    ⟨"median", 1.0, 7.15, 8.15⟩ (by with_unfolding_all decide)

theorem has_component_make (cw cbw rw fw mw : ℚ) (nfp : ℤ) (name : String) :
    (CrossSectionLayout.make cw cbw rw fw mw nfp).has_component name = true ↔
      name ∈ ((layout_candidates cw cbw rw fw mw nfp).filter
        fun p => decide (0 < p.2)).map Prod.fst := by
  rw [← buildFrom_names 0]
  unfold CrossSectionLayout.has_component
  rw [List.any_eq_true]
  constructor
  · rintro ⟨c, hc, hb⟩
    exact List.mem_map.mpr ⟨c, hc, by simpa using hb⟩
  · intro hm
    obtain ⟨c, hc, hn⟩ := List.mem_map.mp hm
    exact ⟨c, hc, by simpa using hn⟩

theorem mem_map_fst_filter (name : String) (l : List (String × ℚ)) :
    (name ∈ (l.filter fun p => decide (0 < p.2)).map Prod.fst) ↔
      ∃ w : ℚ, (name, w) ∈ l ∧ 0 < w := by
  induction l with
  | nil => simp
  | cons hd tl ih =>
    obtain ⟨n, w⟩ := hd
    by_cases h : 0 < w
    · rw [List.filter_cons, if_pos (decide_eq_true h)]
      simp only [List.map_cons, List.mem_cons, ih, List.mem_cons, Prod.mk.injEq]
      constructor
      · rintro (h1 | ⟨w', hw', hp⟩)
        · exact ⟨w, Or.inl ⟨h1, rfl⟩, h⟩
        · exact ⟨w', Or.inr hw', hp⟩
      · rintro ⟨w', (⟨h1, h2⟩ | hw'), hp⟩
        · exact Or.inl h1
        · exact Or.inr ⟨w', hw', hp⟩
    · rw [List.filter_cons, if_neg (by simpa using h)]
      rw [ih]
      constructor
      · rintro ⟨w', hw', hp⟩
        exact ⟨w', List.mem_cons_of_mem _ hw', hp⟩
      · rintro ⟨w', hw', hp⟩
        rcases List.mem_cons.mp hw' with h1 | h1
        · simp only [Prod.mk.injEq] at h1
          exact absurd (h1.2 ▸ hp) h
        · exact ⟨w', h1, hp⟩

theorem buildFrom_mem_pair {x : ℚ} {l : List (String × ℚ)} {c : SectionComponent}
    (hc : c ∈ buildFrom x l) : (c.name, c.width) ∈ l := by
  induction l generalizing x with
  | nil => simp [buildFrom] at hc
  | cons hd tl ih =>
    obtain ⟨n, w⟩ := hd
    by_cases h : w ≤ 0
    · rw [buildFrom, if_pos h] at hc
      exact List.mem_cons_of_mem _ (ih hc)
    · rw [buildFrom, if_neg h] at hc
      rcases List.mem_cons.mp hc with h1 | h1
      · subst h1
        exact List.mem_cons_self _ _
      · exact List.mem_cons_of_mem _ (ih h1)

/-- C2: the `CrossSectionLayout` build rule.  A named component is present
iff its width is strictly positive and its side condition holds (left
railing/footpath need `no_of_footpaths ≥ 1`, right footpath/railing need
`no_of_footpaths ≥ 2`, the carriageway halves need `carriageway_width >
0`); the component names appear in the canonical `ORDER`; `total_width`
is the sum of the included widths; and each carriageway half has width
`carriageway_width / 2`. -/
theorem cross_section_layout_build_rule (cw cbw rw fw mw : ℚ) (nfp : ℤ) :
    ((CrossSectionLayout.make cw cbw rw fw mw nfp).has_component "railing_left" = true ↔
      1 ≤ nfp ∧ 0 < rw) ∧
    ((CrossSectionLayout.make cw cbw rw fw mw nfp).has_component "footpath_left" = true ↔
      1 ≤ nfp ∧ 0 < fw) ∧
    ((CrossSectionLayout.make cw cbw rw fw mw nfp).has_component "crash_barrier_left" = true ↔
      0 < cbw) ∧
    ((CrossSectionLayout.make cw cbw rw fw mw nfp).has_component "carriageway_left" = true ↔
      0 < cw) ∧
    ((CrossSectionLayout.make cw cbw rw fw mw nfp).has_component "median" = true ↔
      0 < mw) ∧
    ((CrossSectionLayout.make cw cbw rw fw mw nfp).has_component "carriageway_right" = true ↔
      0 < cw) ∧
    ((CrossSectionLayout.make cw cbw rw fw mw nfp).has_component "crash_barrier_right" = true ↔
      0 < cbw) ∧
    ((CrossSectionLayout.make cw cbw rw fw mw nfp).has_component "footpath_right" = true ↔
      2 ≤ nfp ∧ 0 < fw) ∧
    ((CrossSectionLayout.make cw cbw rw fw mw nfp).has_component "railing_right" = true ↔
      2 ≤ nfp ∧ 0 < rw) ∧
    ((CrossSectionLayout.make cw cbw rw fw mw nfp).components.map
      SectionComponent.name).Sublist ORDER ∧
    (CrossSectionLayout.make cw cbw rw fw mw nfp).total_width =
      ((CrossSectionLayout.make cw cbw rw fw mw nfp).components.map
        SectionComponent.width).sum ∧
    ∀ c ∈ (CrossSectionLayout.make cw cbw rw fw mw nfp).components,
      (c.name = "carriageway_left" ∨ c.name = "carriageway_right") →
        c.width = cw / 2 := by
  have key : ∀ name : String,
      ((CrossSectionLayout.make cw cbw rw fw mw nfp).has_component name = true ↔
        ∃ w : ℚ, (name, w) ∈ layout_candidates cw cbw rw fw mw nfp ∧ 0 < w) := by
    intro name
    rw [has_component_make, mem_map_fst_filter]
  have h21 : 2 ≤ nfp → 1 ≤ nfp := by omega
  refine ⟨?_, ?_, ?_, ?_, ?_, ?_, ?_, ?_, ?_, ?_, ?_, ?_⟩
  · rw [key]
    by_cases h2 : 2 ≤ nfp
    · have h1 := h21 h2
      simp [layout_candidates, h1, h2]
    · by_cases h1 : 1 ≤ nfp <;> simp [layout_candidates, h1, h2]
  · rw [key]
    by_cases h2 : 2 ≤ nfp
    · have h1 := h21 h2
      simp [layout_candidates, h1, h2]
    · by_cases h1 : 1 ≤ nfp <;> simp [layout_candidates, h1, h2]
  · rw [key]
    by_cases h2 : 2 ≤ nfp
    · have h1 := h21 h2
      simp [layout_candidates, h1, h2]
    · by_cases h1 : 1 ≤ nfp <;> simp [layout_candidates, h1, h2]
  · rw [key]
    by_cases h2 : 2 ≤ nfp
    · have h1 := h21 h2
      simp [layout_candidates, h1, h2]
    · by_cases h1 : 1 ≤ nfp <;> simp [layout_candidates, h1, h2]
  · rw [key]
    by_cases h2 : 2 ≤ nfp
    · have h1 := h21 h2
      simp [layout_candidates, h1, h2]
    · by_cases h1 : 1 ≤ nfp <;> simp [layout_candidates, h1, h2]
  · rw [key]
    by_cases h2 : 2 ≤ nfp
    · have h1 := h21 h2
      simp [layout_candidates, h1, h2]
    · by_cases h1 : 1 ≤ nfp <;> simp [layout_candidates, h1, h2]
  · rw [key]
    by_cases h2 : 2 ≤ nfp
    · have h1 := h21 h2
      simp [layout_candidates, h1, h2]
    · by_cases h1 : 1 ≤ nfp <;> simp [layout_candidates, h1, h2]
  · rw [key]
    by_cases h2 : 2 ≤ nfp
    · have h1 := h21 h2
      simp [layout_candidates, h1, h2]
    · by_cases h1 : 1 ≤ nfp <;> simp [layout_candidates, h1, h2]
  · rw [key]
    by_cases h2 : 2 ≤ nfp
    · have h1 := h21 h2
      simp [layout_candidates, h1, h2]
    · by_cases h1 : 1 ≤ nfp <;> simp [layout_candidates, h1, h2]
  · show ((buildFrom 0 (layout_candidates cw cbw rw fw mw nfp)).map
      SectionComponent.name).Sublist ORDER
    rw [buildFrom_names]
    refine List.Sublist.trans ((List.filter_sublist _).map Prod.fst) ?_
    by_cases h2 : 2 ≤ nfp
    · have h1 := h21 h2
      simp [layout_candidates, h1, h2, ORDER]
    · by_cases h1 : 1 ≤ nfp <;> simp [layout_candidates, h1, h2, ORDER]
  · show totalFrom 0 (layout_candidates cw cbw rw fw mw nfp) =
      ((buildFrom 0 (layout_candidates cw cbw rw fw mw nfp)).map
        SectionComponent.width).sum
    rw [buildFrom_widths, totalFrom_eq, zero_add]
  · intro c hc hname
    have hp := buildFrom_mem_pair hc
    by_cases h2 : 2 ≤ nfp
    · have h1 := h21 h2
      rcases hname with h | h <;> rw [h] at hp <;>
        simpa [layout_candidates, h1, h2] using hp
    · by_cases h1 : 1 ≤ nfp <;>
        (rcases hname with h | h <;> rw [h] at hp <;>
          simpa [layout_candidates, h1, h2] using hp)

/-- Witness for C2 at the spec's test inputs `(carriageway=10,
crash_barrier=0.5, railing=0.15, footpath=1.5, footpaths=2)`: with
`median_width=1.0` the median is present; with `median_width=0` it is
absent. -/
theorem cross_section_layout_build_rule_witness :
    (CrossSectionLayout.make 10 0.5 0.15 1.5 1.0 2).has_component "median" = true ∧
    (CrossSectionLayout.make 10 0.5 0.15 1.5 0 2).has_component "median" = false := by
  constructor
  · exact (cross_section_layout_build_rule 10 0.5 0.15 1.5 1.0 2).2.2.2.2.1.mpr
      (by norm_num)
  · have h := (cross_section_layout_build_rule 10 0.5 0.15 1.5 0 2).2.2.2.2.1
    rw [Bool.eq_false_iff]
    intro hb
    exact absurd (h.mp hb) (by norm_num)

theorem pyRoundR_eq_down {x : ℝ} {n : ℤ} (h1 : (n : ℝ) ≤ x) (h2 : x < n + 1/2) :
    pyRoundR x = n := by
  have hf : ⌊x⌋ = n := Int.floor_eq_iff.mpr ⟨h1, by linarith⟩
  simp only [pyRoundR, hf]
  rw [if_pos (by linarith : x - (n : ℝ) < 1/2)]

theorem pyRoundR_eq_up {x : ℝ} {n : ℤ} (h1 : (n : ℝ) + 1/2 < x) (h2 : x < n + 1) :
    pyRoundR x = n + 1 := by
  have hf : ⌊x⌋ = n := Int.floor_eq_iff.mpr ⟨by linarith, h2⟩
  simp only [pyRoundR, hf]
  rw [if_neg (by push_neg; linarith : ¬ (x - (n : ℝ) < 1/2)),
    if_pos (by linarith : (1 : ℝ)/2 < x - (n : ℝ))]

/-- C8: the Material Properties dialog's deck defaults compute
`fctm = round(0.7*sqrt(fck), 1)` and `Ecm = round(5.0*sqrt(fck)*factor, 1)`
where `fck` is the integer formed by the digit characters of the grade
string (default 25 when no digits are present); in particular grade
`"M 30"` with factor `1.0` yields `fctm = 3.8` and `Ecm = 27.4`. -/
theorem deck_defaults_formula :
    (∀ (grade : String) (factor_value : ℝ),
      (deck_defaults grade factor_value).fck =
        (extract_numeric_grade grade 25 : ℝ) ∧
      (deck_defaults grade factor_value).fctm =
        pyRound1R (0.7 * Real.sqrt (extract_numeric_grade grade 25 : ℝ)) ∧
      (deck_defaults grade factor_value).ecm =
        pyRound1R (5.0 * Real.sqrt (extract_numeric_grade grade 25 : ℝ) * factor_value)) ∧
    extract_numeric_grade "M 30" 25 = 30 ∧
    extract_numeric_grade "no digits here" 25 = 25 ∧
    (deck_defaults "M 30" 1).fctm = 3.8 ∧
    (deck_defaults "M 30" 1).ecm = 27.4 := by
  have hcast : ((extract_numeric_grade "M 30" 25 : ℕ) : ℝ) = 30 := by
    norm_num [show extract_numeric_grade "M 30" 25 = 30 from rfl]
  have hs : Real.sqrt 30 ^ 2 = 30 := Real.sq_sqrt (by norm_num)
  have hnn : (0 : ℝ) ≤ Real.sqrt 30 := Real.sqrt_nonneg 30
  have hlb : (5.477 : ℝ) < Real.sqrt 30 := by nlinarith [hs, hnn]
  have hub : Real.sqrt 30 < 5.478 := by nlinarith [hs, hnn]
  refine ⟨fun grade factor_value => ⟨rfl, rfl, rfl⟩, rfl, rfl, ?_, ?_⟩
  · show pyRound1R (0.7 * Real.sqrt ((extract_numeric_grade "M 30" 25 : ℕ) : ℝ)) = 3.8
    rw [hcast]
    unfold pyRound1R
    rw [show pyRoundR (10 * (0.7 * Real.sqrt 30)) = 38 from
      pyRoundR_eq_down (by push_cast; linarith) (by push_cast; linarith)]
    norm_num
  · show pyRound1R (5.0 * Real.sqrt ((extract_numeric_grade "M 30" 25 : ℕ) : ℝ) * 1) = 27.4
    rw [hcast]
    rw [show (5.0 : ℝ) * Real.sqrt 30 * 1 = 5 * Real.sqrt 30 by ring]
    unfold pyRound1R
    rw [show pyRoundR (10 * (5 * Real.sqrt 30)) = 273 + 1 from
      pyRoundR_eq_up (by push_cast; linarith) (by push_cast; linarith)]
    norm_num

end OsdagBridge
